import Mathlib

/-!
Shallow embedding of `libs/community/langchain_community/tools/calender.py`
and `libs/community/langchain_community/tools/trigonometry.py`.

Conventions:
* Instants are modelled as `Int` minutes since an arbitrary epoch; a Python
  `datetime` is a wall-clock reading plus an optional UTC-offset
  (`tzinfo is None` = naive).
* Python exceptions are values of `PyErr`; code that can raise returns
  `Except PyErr _`.
* Python dynamic values that flow through the tools (`id`, `limit`,
  `value`, ... fields of a request) are modelled by `PyVal`.  List payloads
  are never inspected by any code path, so the `vlist` constructor is
  nullary.
* The trigonometric evaluation itself is kept symbolic (`RNum`): the claims
  under verification concern control flow, domain errors and envelope
  shape, never the numeric value of `sin x`.
-/

/-- Python exception classes raised by the embedded code. -/
inductive PyErr where
  | valueError (msg : String)
  | typeError (msg : String)
  | keyError (key : String)
deriving DecidableEq

/-- Model of `str(e)` for the exceptions above (Python renders `KeyError` with the
quoted key). -/
def pyErrMsg : PyErr → String
  | .valueError m => m
  | .typeError m => m
  | .keyError k => "\x27" ++ k ++ "\x27"

/-- Dynamic Python values forwarded through request dictionaries. -/
inductive PyVal where
  | vnull
  | vbool (b : Bool)
  | vint (n : Int)
  | vfloat (q : ℚ)
  | vstr (s : String)
  | vlist
deriving DecidableEq

/-- Python truthiness for `PyVal`. -/
def pyTruthy : PyVal → Bool
  | .vnull => false
  | .vbool b => b
  | .vint n => n != 0
  | .vfloat q => q != 0
  | .vstr s => s != ""
  | .vlist => true

/-- f-string rendering of a `PyVal` (only the cases the tools can hit
matter; list rendering is abstracted). -/
def pyFormat : PyVal → String
  | .vnull => "None"
  | .vbool b => if b then "True" else "False"
  | .vint n => toString n
  | .vfloat q => toString q
  | .vstr s => s
  | .vlist => "[...]"

/-- Rational truncation toward zero, the semantics of Python `int(float)`.
`q.den` is positive, so T-division matches. -/
def ratTrunc (q : ℚ) : Int := Int.tdiv q.num q.den

/-- Decimal-string parsing done by Python `int(str)`: optional surrounding
spaces, one optional sign, a nonempty digit run.  (Underscore separators
accepted by CPython are not modelled; no claim touches them.) -/
def pyStrToInt (s : String) : Except PyErr Int :=
  let t := ((s.data.dropWhile (· = ' ')).reverse.dropWhile (· = ' ')).reverse
  let signed : Bool × List Char :=
    match t with
    | '-' :: r => (true, r)
    | '+' :: r => (false, r)
    | r => (false, r)
  let ds := signed.2
  if ds ≠ [] ∧ ds.all Char.isDigit then
    let n : Nat := ds.foldl (fun acc c => acc * 10 + (c.toNat - 48)) 0
    .ok (if signed.1 then -(n : Int) else (n : Int))
  else
    .error (.valueError ("invalid literal for int() with base 10: \x27" ++ s ++ "\x27"))

/-- Python `int(v)` over the modelled dynamic values: identity on ints,
truncation on floats, `True`/`False` to `1`/`0`, decimal parsing on
strings, `TypeError` on `None` and lists. -/
def pyToInt : PyVal → Except PyErr Int
  | .vnull => .error (.typeError
      "int() argument must be a string, a bytes-like object or a real number, not \x27NoneType\x27")
  | .vbool b => .ok (if b then 1 else 0)
  | .vint n => .ok n
  | .vfloat q => .ok (ratTrunc q)
  | .vstr s => pyStrToInt s
  | .vlist => .error (.typeError
      "int() argument must be a string, a bytes-like object or a real number, not \x27list\x27")

/-- Model of `a or b` for an optional string `a` and string `b` (Python returns `b`
when `a` is `None` or empty). -/
def pyOrStr (a : Option String) (b : String) : String :=
  match a with
  | some s => if s = "" then b else s
  | none => b

/-- A Python `datetime`: wall-clock minutes plus optional UTC offset in
minutes (`off = none` models a naive datetime). -/
structure PyDatetime where
  wall : Int
  off : Option Int
deriving DecidableEq

/-- Model of `dt.astimezone(timezone.utc)` for an aware datetime; callers below
only apply it to aware values (naive treated as offset 0, matching the
explicit naive branch of `_isoformat`). -/
def astimezoneUTC (d : PyDatetime) : PyDatetime :=
  ⟨d.wall - d.off.getD 0, some 0⟩

/-- The values the calendar tool may receive where the source expects a
datetime-or-string: an actual `datetime`, a string `dateutil` parses to
some datetime, an unparseable string, `None`, or any other type. -/
inductive DtInput where
  | dtObj (d : PyDatetime)
  | strOk (d : PyDatetime) (s : String)
  | strBad (s : String)
  | pynull
  | other
deriving DecidableEq

/-- UTC-instant extraction from an aware datetime. -/
def instantOf (d : PyDatetime) : Int := d.wall - d.off.getD 0

section ReplaceMachinery

/-- Fuel-driven model of Python `str.replace` over character lists
(left-to-right, non-overlapping).  Fuel at least the subject length makes
it total and structurally computable; the subject patterns here are
nonempty, so the empty-pattern corner of `str.replace` is irrelevant. -/
def repChars (pat rep : List Char) : Nat → List Char → List Char
  | _, [] => []
  | 0, l => l
  | fuel + 1, c :: rest =>
    if pat ≠ [] ∧ pat.isPrefixOf (c :: rest) then
      rep ++ repChars pat rep fuel ((c :: rest).drop pat.length)
    else
      c :: repChars pat rep fuel rest

/-- Model of `s.replace(pat, rep)`. -/
def pyReplace (s pat rep : String) : String :=
  ⟨repChars pat.data rep.data s.data.length s.data⟩

/-- Model of `str.lower()` (structural, so that closed theorems reduce; the inputs
lower-cased by the tools are ASCII action/function/unit names). -/
def strToLower (s : String) : String := ⟨s.data.map Char.toLower⟩

/-- Data-level `endsWith`. -/
def strEndsWith (s suf : String) : Bool :=
  suf.data.isSuffixOf s.data

end ReplaceMachinery

section IsoRendering

/-- One decimal digit as a character. -/
def digitChar : Nat → Char
  | 0 => '0' | 1 => '1' | 2 => '2' | 3 => '3' | 4 => '4'
  | 5 => '5' | 6 => '6' | 7 => '7' | 8 => '8' | _ => '9'

/-- Little-endian digit expansion of a natural number. -/
def natCharsAux : Nat → List Char
  | n =>
    if h : n < 10 then [digitChar n]
    else digitChar (n % 10) :: natCharsAux (n / 10)
decreasing_by exact Nat.div_lt_self (by omega) (by omega)

/-- Decimal rendering of a natural number. -/
def natChars (n : Nat) : List Char := (natCharsAux n).reverse

/-- Decimal rendering of an integer. -/
def intChars (i : Int) : List Char :=
  if i < 0 then '-' :: natChars i.natAbs else natChars i.natAbs

/-- Abstract model of the date-time body that `datetime.isoformat()` renders
for the UTC instant `t` (the part before the UTC offset).  The concrete Gregorian
text is immaterial to every claim; what the development relies on — as in
the real output `YYYY-MM-DDTHH:MM:SS[.ffffff]` — is that the body contains
no `'+'` character, so the `str.replace` below rewrites exactly the
trailing offset. -/
def isoCore (t : Int) : String := ⟨intChars t⟩

end IsoRendering

/-- Model of `_isoformat`: ISO 8601 UTC string for a datetime, naive values being
stamped UTC, with the `+00:00` offset of `datetime.isoformat` rewritten to
a literal `Z` by `str.replace`. -/
def _isoformat (d : PyDatetime) : String :=
  let aware : PyDatetime := ⟨d.wall, some (d.off.getD 0)⟩
  let dtUtc := astimezoneUTC aware
  pyReplace ((isoCore dtUtc.wall) ++ "+00:00") "+00:00" "Z"

/-- Construction-time configuration of a `CalendarTool`, together with the
zone database of the environment (`ZoneInfo` lookup: `some offset` when the
IANA name is recognized, `none` when constructing it raises). -/
structure CalCfg where
  zdb : String → Option Int
  default_timezone : String

/-- Model of `_ensure_tz`: attach a zone to a naive datetime — the given zone name
when truthy and recognized, UTC when it is unrecognized (the silent
fallback), UTC when no name is given; aware datetimes pass through. -/
def _ensure_tz (zdb : String → Option Int) (d : PyDatetime) (tz : Option String) : PyDatetime :=
  match d.off with
  | some _ => d
  | none =>
    match tz with
    | some z =>
      if z = "" then ⟨d.wall, some 0⟩
      else
        match zdb z with
        | some o => ⟨d.wall, some o⟩
        | none => ⟨d.wall, some 0⟩
    | none => ⟨d.wall, some 0⟩

namespace CalendarTool

/-- Model of `_parse_datetime`: accept a datetime or a string, attach
`tz or self.default_timezone` when naive, convert to UTC; reject `None`
and other types, and wrap string-parse failures of `dateutil` in a
`ValueError` naming the offending text. -/
def _parse_datetime (cfg : CalCfg) (v : DtInput) (tz : Option String) : Except PyErr Int :=
  match v with
  | .dtObj d =>
    .ok (instantOf (_ensure_tz cfg.zdb d (some (pyOrStr tz cfg.default_timezone))))
  | .strOk d _ =>
    .ok (instantOf (_ensure_tz cfg.zdb d (some (pyOrStr tz cfg.default_timezone))))
  | .strBad s =>
    .error (.valueError ("Unable to parse datetime string: " ++ s ++ "; error: ParserError"))
  | .pynull => .error (.valueError "start/end must be a datetime or string")
  | .other => .error (.valueError "start/end must be a datetime or string")

/-- Event `metadata` payloads are opaque to the store; modelled as string maps. -/
def Meta := List (String × String)
deriving DecidableEq

/-- A stored event record.  `start`/`end` hold the UTC instants whose
ISO strings the Python record carries (the strings round-trip through
`isoparse`∘`_isoformat`, so range/next queries compare the instants). -/
structure Event where
  id : String
  title : Option String
  description : Option String
  start : Int
  end_ : Option Int
  timezone : Option String
  metadata : Meta
deriving DecidableEq

/-- The recognized fields of a `create`/`update` event mapping.  The outer
`Option` on `title`/`description`/`timezone` is key presence, the inner
one an explicit `null` value.  `otherKeys` records whether the mapping
carried any unrecognized key (it keeps an otherwise-empty dict truthy). -/
structure Changes where
  start : Option DtInput := none
  end_ : Option DtInput := none
  title : Option (Option String) := none
  description : Option (Option String) := none
  timezone : Option (Option String) := none
  metadata : Option Meta := none
  otherKeys : Bool := false
deriving DecidableEq

/-- Python truthiness of the event mapping (`not changes`). -/
def changesTruthy (ch : Changes) : Bool :=
  ch.start.isSome || ch.end_.isSome || ch.title.isSome || ch.description.isSome ||
    ch.timezone.isSome || ch.metadata.isSome || ch.otherKeys

/-- Model of `changes.get("timezone", existing.get("timezone", default))`: the
stored record always carries the `timezone` key, so the inner default
never fires. -/
def tzCtx (ch : Changes) (e : Event) : Option String :=
  match ch.timezone with
  | some v => v
  | none => e.timezone

/-- Model of `update`, "start" step: parse and store the new start, wrapping any
failure in `ValueError("Invalid start value: ...")`.  The error value
carries the record as mutated so far. -/
def applyStart (cfg : CalCfg) (ch : Changes) (e : Event) : Except (Event × PyErr) Event :=
  match ch.start with
  | none => .ok e
  | some v =>
    match _parse_datetime cfg v (tzCtx ch e) with
    | .ok t => .ok { e with start := t }
    | .error er => .error (e, .valueError ("Invalid start value: " ++ pyErrMsg er))

/-- Model of `update`, "end" step: an explicit `null` clears the end, otherwise the
value is parsed; a parse failure propagates unwrapped, carrying the record
as mutated so far. -/
def applyEnd (cfg : CalCfg) (ch : Changes) (e : Event) : Except (Event × PyErr) Event :=
  match ch.end_ with
  | none => .ok e
  | some .pynull => .ok { e with end_ := none }
  | some v =>
    match _parse_datetime cfg v (tzCtx ch e) with
    | .ok t => .ok { e with end_ := some t }
    | .error er => .error (e, er)

/-- Model of `update`, remaining steps: `title`, `description`, `timezone`,
`metadata` are merged verbatim when their key is present. -/
def applyRest (ch : Changes) (e : Event) : Event :=
  { e with
    title := match ch.title with | some v => v | none => e.title
    description := match ch.description with | some v => v | none => e.description
    timezone := match ch.timezone with | some v => v | none => e.timezone
    metadata := match ch.metadata with | some v => v | none => e.metadata }

/-- The field-merging body of `_update_event_in_memory`, in source order:
start, end, then the verbatim fields.  A failure returns the partially
merged record alongside the exception — in the in-memory backend that
record is the aliased stored dict. -/
def mergeChanges (cfg : CalCfg) (e : Event) (ch : Changes) : Except (Event × PyErr) Event :=
  match applyStart cfg ch e with
  | .error x => .error x
  | .ok e1 =>
    match applyEnd cfg ch e1 with
    | .error x => .error x
    | .ok e2 => .ok (applyRest ch e2)

/-- Storage backend variant, fixed at construction. -/
inductive Backend where
  | mem
  | sqlite
deriving DecidableEq

/-- Store state: the backend flag plus the id-keyed records, in insertion
order (Python dict insertion order; SQLite row order for this workload). -/
structure CalState where
  backend : Backend
  store : List (String × Event)
deriving DecidableEq

/-- Dict/table lookup by id. -/
def lookupEvent : List (String × Event) → String → Option Event
  | [], _ => none
  | (k, v) :: rest, s => if k = s then some v else lookupEvent rest s

/-- Dict/table write at an existing id (keys are unique; position kept). -/
def setEvent : List (String × Event) → String → Event → List (String × Event)
  | [], _, _ => []
  | (k, v) :: rest, s, e => if k = s then (k, e) :: rest else (k, v) :: setEvent rest s e

/-- Dict `pop` / SQL `DELETE` by id. -/
def deleteEvent : List (String × Event) → String → List (String × Event)
  | [], _ => []
  | (k, v) :: rest, s => if k = s then rest else (k, v) :: deleteEvent rest s

/-- Model of `_get_event_in_memory` (same lookup on both backends; the in-memory
variant returns the live dict — aliasing that `_update_event_in_memory`
below reflects). -/
def _get_event_in_memory (st : CalState) (eid : String) : Option Event :=
  lookupEvent st.store eid

/-- Model of `_list_events_in_memory`. -/
def _list_events_in_memory (st : CalState) : List Event :=
  st.store.map (·.2)

/-- Model of `_delete_event_in_memory`: remove and report whether the id existed. -/
def _delete_event_in_memory (st : CalState) (eid : String) : CalState × Bool :=
  match lookupEvent st.store eid with
  | none => (st, false)
  | some _ => ({ st with store := deleteEvent st.store eid }, true)

/-- Model of `_update_event_in_memory`.  `ok none` is the id-not-found result.  On
a merge failure the in-memory backend keeps the partially mutated record
(the source mutates the aliased stored dict field by field before the
failing parse), while the SQLite backend — which merged into a fresh copy
from `_persist_get` and never reached `_persist_update` — is unchanged. -/
def _update_event_in_memory (cfg : CalCfg) (st : CalState) (eid : String) (ch : Changes) :
    CalState × Except PyErr (Option Event) :=
  match lookupEvent st.store eid with
  | none => (st, .ok none)
  | some e =>
    match mergeChanges cfg e ch with
    | .ok e' => ({ st with store := setEvent st.store eid e' }, .ok (some e'))
    | .error (ePart, er) =>
      (match st.backend with
       | .mem => { st with store := setEvent st.store eid ePart }
       | .sqlite => st,
       .error er)

/-- Model of `_create_event_in_memory`: resolve the effective zone, parse `start`
(its absence is a `KeyError`) and the optional non-null `end`, append the
canonical record under the fresh id. -/
def _create_event_in_memory (cfg : CalCfg) (st : CalState) (newId : String) (ch : Changes) :
    CalState × Except PyErr Event :=
  match ch.start with
  | none => (st, .error (.keyError "start"))
  | some sv =>
    let tz : String := pyOrStr (ch.timezone.getD none) cfg.default_timezone
    match _parse_datetime cfg sv (some tz) with
    | .error er => (st, .error er)
    | .ok startT =>
      let endRes : Except PyErr (Option Int) :=
        match ch.end_ with
        | none => .ok none
        | some .pynull => .ok none
        | some ev =>
          match _parse_datetime cfg ev (some tz) with
          | .ok t => .ok (some t)
          | .error er => .error er
      match endRes with
      | .error er => (st, .error er)
      | .ok endT =>
        let stored : Event :=
          { id := newId
            title := ch.title.getD none
            description := ch.description.getD none
            start := startT
            end_ := endT
            timezone := some tz
            metadata := ch.metadata.getD [] }
        ({ st with store := st.store ++ [(newId, stored)] }, .ok stored)

/-- The sort relation of the query helpers: ascending by parsed `start`. -/
def evLe (x y : Event) : Prop := x.start ≤ y.start

instance : DecidableRel evLe := fun x y => inferInstanceAs (Decidable (x.start ≤ y.start))

instance : IsTotal Event evLe := ⟨fun x y => Int.le_total x.start y.start⟩

instance : IsTrans Event evLe := ⟨fun _ _ _ h1 h2 => le_trans h1 h2⟩

/-- The selection test of `_events_in_range`: `start` within the closed
bounds, or a present `end` within them. -/
def inRangeB (a b : Int) (e : Event) : Bool :=
  (decide (a ≤ e.start) && decide (e.start ≤ b)) ||
    (match e.end_ with
     | some t => decide (a ≤ t) && decide (t ≤ b)
     | none => false)

/-- Model of `_events_in_range`: linear filter over the stored events, then a
stable sort ascending by `start` (`list.sort(key=...)`). -/
def _events_in_range (st : CalState) (a b : Int) : List Event :=
  List.insertionSort evLe ((_list_events_in_memory st).filter (inRangeB a b))

/-- Model of `_find_next_event`: keep the events starting at or after `now`, sort
ascending by `start`, return the first if any. -/
def _find_next_event (st : CalState) (now : Int) : Option Event :=
  (List.insertionSort evLe ((_list_events_in_memory st).filter (fun e => decide (now ≤ e.start)))).head?

/-- The `event` payload of a response: a full record, or the bare
`{"id": ...}` object a successful delete returns. -/
inductive EvOut where
  | full (e : Event)
  | idOnly (s : String)
deriving DecidableEq

/-- The calendar response envelope
`{status, error, event, events, count}`. -/
structure CalEnvelope where
  status : String
  error : Option String
  event : Option EvOut
  events : Option (List Event)
  count : Nat
deriving DecidableEq

/-- Model of `_format_response`: `count` is `len(events)` when `events` is present,
else `1` when an `event` is present, else `0`. -/
def _format_response (status : String) (error : Option String)
    (event : Option EvOut := none) (events : Option (List Event) := none) : CalEnvelope :=
  { status := status
    error := error
    event := event
    events := events
    count :=
      match events with
      | some l => l.length
      | none => match event with | some _ => 1 | none => 0 }

/-- A parsed request dictionary: each field records key presence.  In
`event`, `some (some ch)` is a present dict, `some none` a present
non-dict value (silently dropped by the normalizer), `none` an absent
key. -/
structure RawReq where
  action : Option PyVal := none
  id : Option PyVal := none
  limit : Option PyVal := none
  event : Option (Option Changes) := none
  start : Option DtInput := none
  end_ : Option DtInput := none

/-- The raw input to `_run`: a JSON string that fails to decode, a JSON
string decoding to a dict, an already-structured dict, or any other
type. -/
inductive CalQuery where
  | strBadJson (msg : String)
  | strGood (r : RawReq)
  | dict (r : RawReq)
  | other

/-- The normalized request descriptor built by `_normalize_input`. -/
structure NormReq where
  action : String
  id : Option PyVal := none
  limit : Option Int := none
  event : Option Changes := none
  start : Option DtInput := none
  end_ : Option DtInput := none

/-- Model of `_normalize_input`: JSON/dict validation, mandatory truthy string
`action` (lower-cased), verbatim `id`, `int(...)`-coerced `limit`,
`event` kept only when it is a dict, `start`/`end` forwarded. -/
def _normalize_input (q : CalQuery) : Except PyErr NormReq :=
  match q with
  | .strBadJson m => .error (.valueError ("Invalid JSON input: " ++ m))
  | .other => .error (.valueError "Input must be JSON string or dict.")
  | .strGood r | .dict r =>
    match r.action with
    | some (.vstr a) =>
      if a = "" then .error (.valueError "Missing or invalid \x27action\x27 field.")
      else
        match (match r.limit with
               | none => Except.ok (none : Option Int)
               | some v => (pyToInt v).map some) with
        | .error er => .error er
        | .ok lim =>
          .ok { action := strToLower a
                id := r.id
                limit := lim
                event := match r.event with | some (some ch) => some ch | _ => none
                start := r.start
                end_ := r.end_ }
    | some _ => .error (.valueError "Missing or invalid \x27action\x27 field.")
    | none => .error (.valueError "Missing or invalid \x27action\x27 field.")

/-- Dispatch of `_run` on the normalized request, returning the resulting
state next to the envelope or the exception about to be handled.  `now`
stands for `datetime.now(timezone.utc)` and `newId` for the fresh
`uuid4` of a create. -/
def runInner (cfg : CalCfg) (now : Int) (newId : String) (st : CalState) (q : NormReq) :
    CalState × Except PyErr CalEnvelope :=
  if q.action = "create" then
    match q.event with
    | none => (st, .ok (_format_response "error" (some "Missing \x27event\x27 payload for create.")))
    | some ch =>
      if changesTruthy ch = false then
        (st, .ok (_format_response "error" (some "Missing \x27event\x27 payload for create.")))
      else
        match _create_event_in_memory cfg st newId ch with
        | (st', .ok stored) => (st', .ok (_format_response "ok" none (some (.full stored))))
        | (st', .error er) => (st', .error er)
  else if q.action = "list" then
    (st, .ok (_format_response "ok" none none (some (_list_events_in_memory st))))
  else if q.action = "get" then
    match q.id with
    | none => (st, .ok (_format_response "error" (some "Missing \x27id\x27 for get.")))
    | some v =>
      if pyTruthy v = false then
        (st, .ok (_format_response "error" (some "Missing \x27id\x27 for get.")))
      else
        match (match v with | .vstr s => _get_event_in_memory st s | _ => none) with
        | none => (st, .ok (_format_response "error" (some ("No event with id " ++ pyFormat v ++ "."))))
        | some e => (st, .ok (_format_response "ok" none (some (.full e))))
  else if q.action = "delete" then
    match q.id with
    | none => (st, .ok (_format_response "error" (some "Missing \x27id\x27 for delete.")))
    | some v =>
      if pyTruthy v = false then
        (st, .ok (_format_response "error" (some "Missing \x27id\x27 for delete.")))
      else
        match (match v with
               | .vstr s => _delete_event_in_memory st s
               | _ => (st, false)) with
        | (st', false) => (st', .ok (_format_response "error" (some ("No event with id " ++ pyFormat v ++ "."))))
        | (st', true) =>
          (st', .ok (_format_response "ok" none (some (.idOnly (pyFormat v)))))
  else if q.action = "update" then
    let missing := _format_response "error" (some "Missing \x27id\x27 or \x27event\x27 for update.")
    match q.id, q.event with
    | none, _ => (st, .ok missing)
    | some _, none => (st, .ok missing)
    | some v, some ch =>
      if pyTruthy v = false ∨ changesTruthy ch = false then
        (st, .ok missing)
      else
        match (match v with
               | .vstr s => _update_event_in_memory cfg st s ch
               | _ => (st, .ok none)) with
        | (st', .ok none) => (st', .ok (_format_response "error" (some ("No event with id " ++ pyFormat v ++ "."))))
        | (st', .ok (some e)) => (st', .ok (_format_response "ok" none (some (.full e))))
        | (st', .error er) => (st', .error er)
  else if q.action = "find_range" then
    match q.start, q.end_ with
    | some sv, some ev =>
      (match _parse_datetime cfg sv none with
       | .error er => (st, .error er)
       | .ok a =>
         match _parse_datetime cfg ev none with
         | .error er => (st, .error er)
         | .ok b => (st, .ok (_format_response "ok" none none (some (_events_in_range st a b)))))
    | _, _ => (st, .ok (_format_response "error" (some "Missing \x27start\x27 or \x27end\x27 for find_range.")))
  else if q.action = "find_next" then
    match _find_next_event st now with
    | none => (st, .ok (_format_response "ok" none none (some [])))
    | some e => (st, .ok (_format_response "ok" none (some (.full e))))
  else
    (st, .ok (_format_response "error" (some ("Unsupported action \x27" ++ q.action ++ "\x27."))))

/-- The exception handlers at the bottom of `_run`: a `ValueError`
surfaces with its own message, anything else with the generic
"Unexpected error" prefix. -/
def handleErr : PyErr → CalEnvelope
  | .valueError m => _format_response "error" (some m)
  | e => _format_response "error" (some ("Unexpected error: " ++ pyErrMsg e))

/-- Model of `CalendarTool._run`: normalize, dispatch, catch. -/
def run (cfg : CalCfg) (now : Int) (newId : String) (st : CalState) (q : CalQuery) :
    CalState × CalEnvelope :=
  match _normalize_input q with
  | .error er => (st, handleErr er)
  | .ok r =>
    match runInner cfg now newId st r with
    | (st', .ok env) => (st', env)
    | (st', .error er) => (st', handleErr er)

end CalendarTool

namespace TrigonometryTool

/-- Symbolic real values produced by the `math` module: literals, the
degree/radian conversions, and the six trig functions.  Kept symbolic
because no claim consults a numeric trig value, only control flow and
envelope shape. -/
inductive RNum where
  | lit (q : ℚ)
  | mradians (x : RNum)
  | mdegrees (x : RNum)
  | msin (x : RNum)
  | mcos (x : RNum)
  | mtan (x : RNum)
  | masin (x : RNum)
  | macos (x : RNum)
  | matan (x : RNum)
deriving DecidableEq

/-- Keys of `_FUNC_MAP`, in insertion order. -/
def funcKeys : List String := ["sin", "cos", "tan", "asin", "acos", "atan"]

/-- Result triple of `_compute`. -/
structure ComputeOut where
  result : RNum
  raw_result : RNum
  unit : Option String
deriving DecidableEq

/-- Model of `_compute`: unsupported names are a `ValueError`; forward functions
convert degree inputs to radians; `math.asin`/`math.acos` raise the
`ValueError("math domain error")` exactly when the magnitude of their
argument exceeds 1 (for the inverse functions that argument is the
unconverted `value`); inverse results are converted to degrees on
request. -/
def _compute (func : String) (value : ℚ) (unit : String) : Except PyErr ComputeOut :=
  if func ∉ funcKeys then
    .error (.valueError ("Function \x27" ++ func ++
      "\x27 not supported. Supported: [\x27sin\x27, \x27cos\x27, \x27tan\x27, \x27asin\x27, \x27acos\x27, \x27atan\x27]"))
  else
    let isInverse : Bool := func ∈ ["asin", "acos", "atan"]
    let inputForMath : RNum :=
      if isInverse = false ∧ unit = "degrees" then .mradians (.lit value) else .lit value
    if (func = "asin" ∨ func = "acos") ∧ 1 < |value| then
      .error (.valueError "math domain error")
    else
      let raw : RNum :=
        match func with
        | "sin" => .msin inputForMath
        | "cos" => .mcos inputForMath
        | "tan" => .mtan inputForMath
        | "asin" => .masin inputForMath
        | "acos" => .macos inputForMath
        | _ => .matan inputForMath
      if isInverse then
        if unit = "degrees" then .ok ⟨.mdegrees raw, raw, some "degrees"⟩
        else .ok ⟨raw, raw, some "radians"⟩
      else .ok ⟨raw, raw, none⟩

/-- A parsed trigonometry request dictionary. -/
structure TrigReq where
  function : Option PyVal := none
  value : Option PyVal := none
  unit : Option PyVal := none
deriving DecidableEq

/-- Raw input to the tool (string inputs keep their original text for the
`raw_query` error field). -/
inductive TrigQuery where
  | strBadJson (orig : String) (msg : String)
  | strGood (orig : String) (r : TrigReq)
  | dict (r : TrigReq)
  | other
deriving DecidableEq

/-- The normalized request of `_normalize_input`. -/
structure NormTrig where
  function : String
  value : ℚ
  unit : String
deriving DecidableEq

/-- Model of `float(v)` for the values accepted by the `value` check (`bool` is an
`int` in Python, so `True`/`False` pass and become `1.0`/`0.0`). -/
def pyFloatOfNum : PyVal → Option ℚ
  | .vint n => some (n : ℚ)
  | .vfloat q => some q
  | .vbool b => some (if b then 1 else 0)
  | _ => none

/-- Model of `TrigonometryTool._normalize_input`: JSON/dict validation, truthy
string `function` (lower-cased), numeric `value` (floated), optional
string `unit` defaulting to `"radians"` and restricted, lower-cased, to
`radians`/`degrees`. -/
def _normalize_input (q : TrigQuery) : Except PyErr NormTrig :=
  match q with
  | .strBadJson _ m => .error (.valueError ("Invalid JSON input: " ++ m))
  | .other => .error (.valueError "Input must be a JSON string or a dict.")
  | .strGood _ r | .dict r =>
    match r.function with
    | some (.vstr f) =>
      if f = "" then .error (.valueError "Missing or invalid \x27function\x27 (must be a string).")
      else
        match (match r.value with
               | none => none
               | some v => pyFloatOfNum v) with
        | none => .error (.valueError "Missing or invalid \x27value\x27 (must be a number).")
        | some value =>
          match (match r.unit with
                 | none => some "radians"
                 | some (.vstr u) => some u
                 | some _ => none) with
          | none => .error (.valueError "\x27unit\x27 must be a string \x27radians\x27 or \x27degrees\x27 if provided.")
          | some u =>
            let u := strToLower u
            if u = "radians" ∨ u = "degrees" then
              .ok { function := strToLower f, value := value, unit := u }
            else .error (.valueError "unit must be \x27radians\x27 or \x27degrees\x27.")
    | some _ => .error (.valueError "Missing or invalid \x27function\x27 (must be a string).")
    | none => .error (.valueError "Missing or invalid \x27function\x27 (must be a string).")

/-- JSON values of the trig response. -/
inductive TJ where
  | tnull
  | tstr (s : String)
  | tnum (x : RNum)
  | tinputNorm (n : NormTrig)
  | tinputRaw (s : String)
  | tinputReq (r : TrigReq)
  | tinputOther
deriving DecidableEq

/-- Model of `TrigonometryTool._format_response`: the response dict in literal key
order — note it has no `status` key; error responses null out `result`,
`unit` and `raw_result` and set `error`. -/
def _format_response (func : String) (inp : TJ) (co : Option ComputeOut)
    (error : Option String) : List (String × TJ) :=
  [("function", .tstr func),
   ("input", inp),
   ("result", match error with
              | some _ => .tnull
              | none => match co with | some c => .tnum c.result | none => .tnull),
   ("unit", match error with
            | some _ => .tnull
            | none => match co with
                      | some c => match c.unit with | some u => .tstr u | none => .tnull
                      | none => .tnull),
   ("raw_result", match error with
                  | some _ => .tnull
                  | none => match co with | some c => .tnum c.raw_result | none => .tnull),
   ("error", match error with | none => .tnull | some m => .tstr m)]

/-- The `input` field used on the error path when normalization failed:
`{"raw_query": query}` for text input, the dict itself otherwise. -/
def rawInputField : TrigQuery → TJ
  | .strBadJson s _ => .tinputRaw s
  | .strGood s _ => .tinputRaw s
  | .dict r => .tinputReq r
  | .other => .tinputOther

/-- Model of `TrigonometryTool._run`: normalize, compute, format; a `ValueError`
is formatted with the normalized input when normalization had succeeded,
else with the raw query; any other exception takes the
"Unexpected error" path.  Total: no exception escapes. -/
def run (q : TrigQuery) : List (String × TJ) :=
  match _normalize_input q with
  | .ok n =>
    match _compute n.function n.value n.unit with
    | .ok co => _format_response n.function (.tinputNorm n) (some co) none
    | .error (.valueError m) => _format_response n.function (.tinputNorm n) none (some m)
    | .error e =>
      _format_response "unknown" (rawInputField q) none (some ("Unexpected error: " ++ pyErrMsg e))
  | .error (.valueError m) => _format_response "unknown" (rawInputField q) none (some m)
  | .error e =>
    _format_response "unknown" (rawInputField q) none (some ("Unexpected error: " ++ pyErrMsg e))

end TrigonometryTool

/-! Concrete fixtures used by closed theorems and witnesses. -/

/-- A small zone database: one recognized non-UTC zone. -/
def cfg0 : CalCfg :=
  ⟨fun z => if z = "Asia/Kolkata" then some 330 else none, "UTC"⟩

/-- A stored event. -/
def e0 : CalendarTool.Event :=
  ⟨"ev1", some "T", none, 0, some 10, some "UTC", []⟩

/-- In-memory store holding `e0`. -/
def stMem0 : CalendarTool.CalState := ⟨.mem, [("ev1", e0)]⟩

/-- SQLite-backed store holding `e0`. -/
def stSql0 : CalendarTool.CalState := ⟨.sqlite, [("ev1", e0)]⟩

/-- An update payload whose `start` parses and whose `end` does not. -/
def ch1 : CalendarTool.Changes :=
  { start := some (.strOk ⟨100, some 0⟩ "2025-01-01T01:40:00Z")
    end_ := some (.strBad "garbage") }

/-- The update request carrying `ch1` for `e0`. -/
def q1 : CalendarTool.CalQuery :=
  .dict { action := some (.vstr "update"), id := some (.vstr "ev1"), event := some (some ch1) }

/-- Data-level `startsWith`. -/
def strStartsWith (s pre : String) : Bool :=
  pre.data.isPrefixOf s.data

/-- A `list` request carrying a null `limit`. -/
def q5 : CalendarTool.CalQuery :=
  .dict { action := some (.vstr "list"), limit := some .vnull }

/-- An `asin` request out of the inverse domain. -/
def r6 : TrigonometryTool.TrigReq :=
  { function := some (.vstr "asin"), value := some (.vint 2) }

/-- C9: in every calendar response envelope, `count` equals the number of
items in `events` when `events` is present, else `1` when a single
`event` is present, else `0`. -/
theorem count_reflects_payload (status : String) (error : Option String)
    (ev : CalendarTool.EvOut) (evs : List CalendarTool.Event) :
    (∀ evo : Option CalendarTool.EvOut,
      (CalendarTool._format_response status error evo (some evs)).count = evs.length) ∧
    (CalendarTool._format_response status error (some ev) none).count = 1 ∧
    (CalendarTool._format_response status error none none).count = 0 :=
  ⟨fun _ => rfl, rfl, rfl⟩

/-- C1: the claim fails on the in-memory backend.  Updating `e0` with a
parseable `start` and an unparseable `end` returns an error envelope, yet
the `start` of the stored record now reads `100` where it was `0` before the
call — the source mutates the aliased stored dict field by field before
the failing parse.  The SQLite variant of the same call leaves its store
untouched, as the claim demands of both. -/
theorem update_failed_end_mutates_memory_store :
    (CalendarTool.run cfg0 0 "n0" stMem0 q1).2.status = "error" ∧
    ((CalendarTool.run cfg0 0 "n0" stMem0 q1).1.store.map
        (fun p => (p.1, p.2.start))) = [("ev1", 100)] ∧
    e0.start = 0 ∧
    (CalendarTool.run cfg0 0 "n0" stSql0 q1).1 = stSql0 ∧
    (CalendarTool.run cfg0 0 "n0" stSql0 q1).2.status = "error" := by
  refine ⟨?_, ?_, rfl, ?_, ?_⟩ <;> decide

/-- C8: for a truthy id absent from the store, `get` returns exactly the
error envelope `No event with id <id>.` with a null `event` (and null
`events`, count 0), and `delete` on the same absent id returns the same
not-found error envelope, never a success; the store is unchanged. -/
theorem get_delete_unknown_id (cfg : CalCfg) (now : Int) (newId : String)
    (st : CalendarTool.CalState) (s : String)
    (hs : s ≠ "") (hl : CalendarTool.lookupEvent st.store s = none) :
    CalendarTool.run cfg now newId st
        (.dict { action := some (.vstr "get"), id := some (.vstr s) }) =
      (st, ⟨"error", some ("No event with id " ++ s ++ "."), none, none, 0⟩) ∧
    CalendarTool.run cfg now newId st
        (.dict { action := some (.vstr "delete"), id := some (.vstr s) }) =
      (st, ⟨"error", some ("No event with id " ++ s ++ "."), none, none, 0⟩) := by
  have htr : pyTruthy (.vstr s) = true := by
    simp [pyTruthy, hs]
  constructor
  · simp [CalendarTool.run, CalendarTool._normalize_input, CalendarTool.runInner, htr,
      CalendarTool._get_event_in_memory, hl, CalendarTool._format_response, pyFormat,
      strToLower, Char.toLower]
  · simp [CalendarTool.run, CalendarTool._normalize_input, CalendarTool.runInner, htr,
      CalendarTool._delete_event_in_memory, hl, CalendarTool._format_response, pyFormat,
      strToLower, Char.toLower]

/-- C8 witness at a concrete store and id. -/
theorem get_delete_unknown_id_witness :
    CalendarTool.run cfg0 0 "n0" stMem0
        (.dict { action := some (.vstr "get"), id := some (.vstr "zz") }) =
      (stMem0, ⟨"error", some "No event with id zz.", none, none, 0⟩) :=
  (get_delete_unknown_id cfg0 0 "n0" stMem0 "zz" (by decide) (by decide)).1

/-- C10: a present but falsy `id` (empty string, `None`, `0`, ...) makes
`get`, `delete` and `update` return the `Missing ...` validation envelope
for that action; the result does not depend on the store, the store is
returned unchanged, and in particular no such id is ever answered with a
not-found error. -/
theorem falsy_id_short_circuits (cfg : CalCfg) (now : Int) (newId : String)
    (st : CalendarTool.CalState) (v : PyVal) (hv : pyTruthy v = false) :
    CalendarTool.run cfg now newId st
        (.dict { action := some (.vstr "get"), id := some v }) =
      (st, ⟨"error", some "Missing \x27id\x27 for get.", none, none, 0⟩) ∧
    CalendarTool.run cfg now newId st
        (.dict { action := some (.vstr "delete"), id := some v }) =
      (st, ⟨"error", some "Missing \x27id\x27 for delete.", none, none, 0⟩) ∧
    (∀ ch : CalendarTool.Changes,
      CalendarTool.run cfg now newId st
          (.dict { action := some (.vstr "update"), id := some v, event := some (some ch) }) =
        (st, ⟨"error", some "Missing \x27id\x27 or \x27event\x27 for update.", none, none, 0⟩)) := by
  refine ⟨?_, ?_, fun ch => ?_⟩ <;>
    simp [CalendarTool.run, CalendarTool._normalize_input, CalendarTool.runInner, hv,
      CalendarTool._format_response, strToLower, Char.toLower]

/-- C10 witness: the empty-string id on a nonempty store. -/
theorem falsy_id_short_circuits_witness :
    CalendarTool.run cfg0 0 "n0" stMem0
        (.dict { action := some (.vstr "get"), id := some (.vstr "") }) =
      (stMem0, ⟨"error", some "Missing \x27id\x27 for get.", none, none, 0⟩) :=
  (falsy_id_short_circuits cfg0 0 "n0" stMem0 (.vstr "") (by decide)).1

/-- C4: an update whose change mapping supplies exactly one recognized
field leaves every other field of the stored record at its pre-update
value; `start`/`end` are stored re-parsed (under the current timezone
of the event), the other four verbatim. -/
theorem update_single_field_frame (cfg : CalCfg) (st : CalendarTool.CalState) (eid : String)
    (e : CalendarTool.Event) (he : CalendarTool.lookupEvent st.store eid = some e) :
    (∀ v e', (CalendarTool._update_event_in_memory cfg st eid { start := some v }).2 = .ok (some e') →
      e'.id = e.id ∧ e'.title = e.title ∧ e'.description = e.description ∧
        e'.end_ = e.end_ ∧ e'.timezone = e.timezone ∧ e'.metadata = e.metadata ∧
        CalendarTool._parse_datetime cfg v e.timezone = .ok e'.start) ∧
    (∀ v e', (CalendarTool._update_event_in_memory cfg st eid { end_ := some v }).2 = .ok (some e') →
      e'.id = e.id ∧ e'.title = e.title ∧ e'.description = e.description ∧
        e'.start = e.start ∧ e'.timezone = e.timezone ∧ e'.metadata = e.metadata) ∧
    (∀ tv e', (CalendarTool._update_event_in_memory cfg st eid { title := some tv }).2 = .ok (some e') →
      e' = { e with title := tv }) ∧
    (∀ dv e', (CalendarTool._update_event_in_memory cfg st eid { description := some dv }).2 = .ok (some e') →
      e' = { e with description := dv }) ∧
    (∀ zv e', (CalendarTool._update_event_in_memory cfg st eid { timezone := some zv }).2 = .ok (some e') →
      e' = { e with timezone := zv }) ∧
    (∀ mv e', (CalendarTool._update_event_in_memory cfg st eid { metadata := some mv }).2 = .ok (some e') →
      e' = { e with metadata := mv }) := by
  refine ⟨fun v e' h => ?_, fun v e' h => ?_, fun tv e' h => ?_, fun dv e' h => ?_,
    fun zv e' h => ?_, fun mv e' h => ?_⟩
  · cases hp : CalendarTool._parse_datetime cfg v e.timezone with
    | ok t =>
      simp only [CalendarTool._update_event_in_memory, he, CalendarTool.mergeChanges,
        CalendarTool.applyStart, CalendarTool.applyEnd, CalendarTool.applyRest,
        CalendarTool.tzCtx, hp] at h
      injection h with h1
      injection h1 with h2
      subst h2
      simp
    | error er =>
      simp [CalendarTool._update_event_in_memory, he, CalendarTool.mergeChanges,
        CalendarTool.applyStart, CalendarTool.tzCtx, hp] at h
  · cases v <;>
      simp only [CalendarTool._update_event_in_memory, he, CalendarTool.mergeChanges,
        CalendarTool.applyStart, CalendarTool.applyEnd, CalendarTool.applyRest,
        CalendarTool.tzCtx, CalendarTool._parse_datetime] at h <;>
      (try (injection h with h1; injection h1 with h2; subst h2)) <;> simp_all
  all_goals
    simp only [CalendarTool._update_event_in_memory, he, CalendarTool.mergeChanges,
      CalendarTool.applyStart, CalendarTool.applyEnd, CalendarTool.applyRest,
      CalendarTool.tzCtx] at h
  all_goals simp_all

/-- C4 witness: a single-field `start` update of `e0` re-parses and stores
the supplied instant and touches nothing else. -/
theorem update_single_field_frame_witness :
    CalendarTool._parse_datetime cfg0 (.dtObj ⟨50, some 0⟩) e0.timezone =
      .ok (({ e0 with start := 50 } : CalendarTool.Event).start) :=
  ((update_single_field_frame cfg0 stMem0 "ev1" e0 rfl).1 (.dtObj ⟨50, some 0⟩)
    { e0 with start := 50 } (by rfl)).2.2.2.2.2.2

/-- The Boolean range test of `_events_in_range`, as a proposition. -/
lemma inRangeB_iff (a b : Int) (e : CalendarTool.Event) :
    CalendarTool.inRangeB a b e = true ↔
      ((a ≤ e.start ∧ e.start ≤ b) ∨ ∃ t, e.end_ = some t ∧ a ≤ t ∧ t ≤ b) := by
  cases hE : e.end_ <;> simp [CalendarTool.inRangeB, hE]

/-- C2: for bounds `a ≤ b`, `_events_in_range` returns exactly the stored
events whose `start` lies in `[a, b]` or whose present `end` lies in
`[a, b]` (an event spanning the whole window from outside is excluded),
ordered ascending by `start`. -/
theorem find_range_exact_and_sorted (st : CalendarTool.CalState) (a b : Int) (hab : a ≤ b) :
    (∀ e, e ∈ CalendarTool._events_in_range st a b ↔
        e ∈ CalendarTool._list_events_in_memory st ∧
          ((a ≤ e.start ∧ e.start ≤ b) ∨ ∃ t, e.end_ = some t ∧ a ≤ t ∧ t ≤ b)) ∧
    (CalendarTool._events_in_range st a b).Sorted CalendarTool.evLe := by
  constructor
  · intro e
    rw [CalendarTool._events_in_range, List.mem_insertionSort, List.mem_filter,
      inRangeB_iff]
  · exact List.sorted_insertionSort CalendarTool.evLe _

/-- C2 witness: `e0` (start 0) is selected by the window `[0, 10]` over
the one-event store. -/
theorem find_range_exact_and_sorted_witness :
    e0 ∈ CalendarTool._events_in_range stMem0 0 10 :=
  ((find_range_exact_and_sorted stMem0 0 10 (by decide)).1 e0).mpr
    ⟨by decide, Or.inl ⟨by decide, by decide⟩⟩

/-- C3: `_find_next_event` at instant `T` returns a stored event with
minimal `start` among those starting at or after `T`, and returns none
exactly when every stored event starts strictly before `T`. -/
theorem find_next_minimal (st : CalendarTool.CalState) (T : Int) :
    (∀ e, CalendarTool._find_next_event st T = some e →
      e ∈ CalendarTool._list_events_in_memory st ∧ T ≤ e.start ∧
        ∀ e' ∈ CalendarTool._list_events_in_memory st, T ≤ e'.start → e.start ≤ e'.start) ∧
    (CalendarTool._find_next_event st T = none ↔
      ∀ e ∈ CalendarTool._list_events_in_memory st, e.start < T) := by
  constructor
  · intro e h
    rw [CalendarTool._find_next_event] at h
    set l := (CalendarTool._list_events_in_memory st).filter (fun e => decide (T ≤ e.start)) with hl
    set srt := List.insertionSort CalendarTool.evLe l with hsrt
    have hsorted : srt.Sorted CalendarTool.evLe := List.sorted_insertionSort _ _
    cases hcase : srt with
    | nil => rw [hcase] at h; simp at h
    | cons x tail =>
      rw [hcase] at h
      simp only [List.head?] at h
      injection h with hx
      subst hx
      have hmem : x ∈ l := by
        have hx' : x ∈ srt := by rw [hcase]; exact List.mem_cons_self x tail
        simpa [hsrt, List.mem_insertionSort] using hx'
      rw [hl, List.mem_filter] at hmem
      refine ⟨hmem.1, by simpa using hmem.2, ?_⟩
      intro e' he' hT
      have he'l : e' ∈ l := by rw [hl, List.mem_filter]; exact ⟨he', by simpa using hT⟩
      have he'srt : e' ∈ srt := by rw [hsrt, List.mem_insertionSort]; exact he'l
      rw [hcase] at he'srt hsorted
      rcases List.mem_cons.mp he'srt with rfl | htail
      · exact le_refl _
      · exact (List.sorted_cons.mp hsorted).1 e' htail
  · rw [CalendarTool._find_next_event]
    set l := (CalendarTool._list_events_in_memory st).filter (fun e => decide (T ≤ e.start)) with hl
    rw [List.head?_eq_none_iff]
    constructor
    · intro hnil e he
      have : l = [] := by
        have hperm := List.perm_insertionSort CalendarTool.evLe l
        rw [hnil] at hperm
        exact (hperm.symm.eq_nil)
      by_contra hge
      have : e ∈ l := by
        rw [hl, List.mem_filter]
        exact ⟨he, by simpa using le_of_not_lt hge⟩
      simp [‹l = []›] at this
    · intro hall
      have : l = [] := by
        rw [hl, List.filter_eq_nil_iff]
        intro e he
        simpa using not_le.mpr (hall e he)
      rw [this]
      rfl

/-- C3 witness: with the store holding only `e0` (start 0), the next
event from instant 0 is `e0` itself, minimal among the events starting at
or after 0. -/
theorem find_next_minimal_witness :
    e0 ∈ CalendarTool._list_events_in_memory stMem0 ∧ (0 : Int) ≤ e0.start ∧
      ∀ e' ∈ CalendarTool._list_events_in_memory stMem0, (0 : Int) ≤ e'.start →
        e0.start ≤ e'.start :=
  (find_next_minimal stMem0 0).1 e0 (by rfl)

/-- Digits are never `'+'`. -/
lemma digitChar_ne_plus (n : Nat) : digitChar n ≠ '+' := by
  unfold digitChar
  split <;> decide

/-- The digit expansion contains no `'+'`. -/
lemma natCharsAux_no_plus : ∀ n, '+' ∉ natCharsAux n := by
  intro n
  induction n using Nat.strong_induction_on with
  | _ n ih =>
    rw [natCharsAux]
    split
    next h =>
      intro hmem
      simp only [List.mem_singleton] at hmem
      exact digitChar_ne_plus n hmem.symm
    next h =>
      intro hmem
      rcases List.mem_cons.mp hmem with heq | hmem'
      · exact digitChar_ne_plus (n % 10) heq.symm
      · exact ih (n / 10) (Nat.div_lt_self (by omega) (by omega)) hmem'

/-- The decimal rendering of an integer contains no `'+'`. -/
lemma intChars_no_plus (i : Int) : '+' ∉ intChars i := by
  unfold intChars
  split
  · intro hmem
    rcases List.mem_cons.mp hmem with heq | hmem'
    · exact absurd heq (by decide)
    · exact natCharsAux_no_plus i.natAbs (List.mem_reverse.mp hmem')
  · intro hmem
    exact natCharsAux_no_plus i.natAbs (List.mem_reverse.mp hmem)

/-- Evaluation of `repChars` at the empty subject, for any fuel. -/
lemma repChars_nil (pat rep : List Char) (fuel : Nat) : repChars pat rep fuel [] = [] := by
  cases fuel <;> rfl

/-- Reflexivity of `isPrefixOf` on character lists. -/
lemma isPrefixOf_self (l : List Char) : l.isPrefixOf l = true := by
  induction l with
  | nil => rfl
  | cons c t ih => simp [List.isPrefixOf, ih]

/-- Replacing a pattern that starts with `'+'` in `s ++ pat`, where `s`
is `'+'`-free, rewrites exactly the trailing occurrence. -/
lemma repChars_append_pat (p' rep : List Char) :
    ∀ (s : List Char), '+' ∉ s → ∀ fuel, s.length + 1 ≤ fuel →
      repChars ('+' :: p') rep fuel (s ++ ('+' :: p')) = s ++ rep := by
  intro s
  induction s with
  | nil =>
    intro _ fuel hf
    cases fuel with
    | zero => omega
    | succ f =>
      rw [List.nil_append, repChars]
      rw [if_pos ⟨by simp, isPrefixOf_self _⟩]
      have hdrop : (('+' :: p').drop ('+' :: p').length) = [] := by simp
      rw [hdrop, repChars_nil, List.nil_append, List.append_nil]
  | cons c s' ih =>
    intro hs fuel hf
    have hc : c ≠ '+' := fun h => hs (h ▸ List.mem_cons_self c s')
    have hs' : '+' ∉ s' := fun h => hs (List.mem_cons_of_mem c h)
    cases fuel with
    | zero => simp at hf
    | succ f =>
      rw [List.cons_append, repChars]
      rw [if_neg ?hneg]
      case hneg =>
        intro hcond
        have := hcond.2
        simp only [List.isPrefixOf, Bool.and_eq_true, beq_iff_eq] at this
        exact hc this.1.symm
      rw [ih hs' f (by simpa [Nat.succ_le_succ_iff] using hf)]
      rfl

/-- The character data of `_isoformat` is the rendered body followed by a
literal `'Z'`. -/
lemma isoformat_data (d : PyDatetime) :
    (_isoformat d).data = intChars (d.wall - d.off.getD 0) ++ ['Z'] := by
  show (pyReplace ((isoCore (astimezoneUTC ⟨d.wall, some (d.off.getD 0)⟩).wall) ++ "+00:00")
      "+00:00" "Z").data = _
  have hw : (astimezoneUTC ⟨d.wall, some (d.off.getD 0)⟩).wall = d.wall - d.off.getD 0 := rfl
  rw [hw]
  show (pyReplace (⟨intChars (d.wall - d.off.getD 0)⟩ ++ "+00:00") "+00:00" "Z").data = _
  unfold pyReplace
  have hdata : ((⟨intChars (d.wall - d.off.getD 0)⟩ : String) ++ "+00:00").data =
      intChars (d.wall - d.off.getD 0) ++ ('+' :: ['0', '0', ':', '0', '0']) := rfl
  rw [hdata]
  rw [repChars_append_pat _ _ _ (intChars_no_plus _) _ (by simp)]

/-- C7: a datetime parsed without zone information gets the zone supplied
for the call (the store default standing in when none is supplied), an
unrecognized zone name silently falls back to UTC, the stored instant is
the UTC conversion of the interpreted wall time, and serialization ends
in a literal `Z`, never in `+00:00`. -/
theorem parse_zone_and_utc_serialization (cfg : CalCfg) (w : Int) :
    (∀ z o, z ≠ "" → cfg.zdb z = some o →
      CalendarTool._parse_datetime cfg (.dtObj ⟨w, none⟩) (some z) = .ok (w - o)) ∧
    (∀ z, z ≠ "" → cfg.zdb z = none →
      CalendarTool._parse_datetime cfg (.dtObj ⟨w, none⟩) (some z) = .ok w) ∧
    (CalendarTool._parse_datetime cfg (.dtObj ⟨w, none⟩) none =
      CalendarTool._parse_datetime cfg (.dtObj ⟨w, none⟩) (some cfg.default_timezone)) ∧
    (∀ o tz, CalendarTool._parse_datetime cfg (.dtObj ⟨w, some o⟩) tz = .ok (w - o)) ∧
    (∀ d : PyDatetime, strEndsWith (_isoformat d) "Z" = true ∧
      strEndsWith (_isoformat d) "+00:00" = false) := by
  refine ⟨fun z o hz hdb => ?_, fun z hz hdb => ?_, ?_, fun o tz => ?_, fun d => ?_⟩
  · simp [CalendarTool._parse_datetime, _ensure_tz, pyOrStr, hz, hdb, instantOf]
  · simp [CalendarTool._parse_datetime, _ensure_tz, pyOrStr, hz, hdb, instantOf]
  · have hor : pyOrStr (some cfg.default_timezone) cfg.default_timezone =
        pyOrStr none cfg.default_timezone := by
      simp [pyOrStr]
    simp only [CalendarTool._parse_datetime, hor]
  · simp [CalendarTool._parse_datetime, _ensure_tz, instantOf]
  · have hd := isoformat_data d
    constructor
    · show ("Z".data.isSuffixOf (_isoformat d).data) = true
      rw [hd]
      exact List.isSuffixOf_iff_suffix.mpr ⟨intChars (d.wall - d.off.getD 0), rfl⟩
    · show ("+00:00".data.isSuffixOf (_isoformat d).data) = false
      rw [hd]
      by_contra hne
      have hsuf : "+00:00".data <:+ intChars (d.wall - d.off.getD 0) ++ ['Z'] :=
        List.isSuffixOf_iff_suffix.mp (by simpa using hne)
      obtain ⟨t, ht⟩ := hsuf
      have hlast := congrArg List.getLast? ht
      rw [List.getLast?_append, List.getLast?_append] at hlast
      simp at hlast

/-- C7 witness: a naive wall reading at the recognized zone
`Asia/Kolkata` (offset +330 minutes) is stored as its UTC conversion, and
its serialization ends in `Z`. -/
theorem parse_zone_and_utc_serialization_witness :
    CalendarTool._parse_datetime cfg0 (.dtObj ⟨330, none⟩) (some "Asia/Kolkata") =
        .ok ((330 : Int) - 330) ∧
      strEndsWith (_isoformat ⟨0, some 0⟩) "Z" = true :=
  ⟨(parse_zone_and_utc_serialization cfg0 330).1 "Asia/Kolkata" 330 (by decide) (by simp [cfg0]),
    ((parse_zone_and_utc_serialization cfg0 330).2.2.2.2 ⟨0, some 0⟩).1⟩

/-- C5 counterexample: a `limit` of `null` is not coercible, and the call
indeed answers with an error envelope — but through the generic
`except Exception` handler (`int(None)` raises `TypeError`, not
`ValueError`), so the surfaced message carries the `Unexpected error:`
prefix of the unexpected-error class instead of a validation message. -/
theorem limit_null_generic_error_class :
    (CalendarTool.run cfg0 0 "n0" stMem0 q5).2.status = "error" ∧
    (CalendarTool.run cfg0 0 "n0" stMem0 q5).2.error =
      some ("Unexpected error: int() argument must be a string, a bytes-like object or a real number, not \x27NoneType\x27") ∧
    strStartsWith
      ((CalendarTool.run cfg0 0 "n0" stMem0 q5).2.error.getD "") "Unexpected error: " = true := by
  refine ⟨?_, ?_, ?_⟩ <;> decide

/-- C5 amended: a present `limit` is coerced with `int(...)`; a coercion
failure aborts the call with the error envelope produced by the matching
handler — the `ValueError` branch surfaces the validation message itself
(non-numeric strings), while `TypeError` failures (null, list) surface
through the generic handler with the `Unexpected error:` prefix; in both
cases status is `"error"` and the store is unchanged. -/
theorem limit_coercion_and_error_surface (cfg : CalCfg) (now : Int) (newId : String)
    (st : CalendarTool.CalState) (r : CalendarTool.RawReq) (a : String) (v : PyVal)
    (ha : r.action = some (.vstr a)) (ha' : a ≠ "") (hv : r.limit = some v) :
    (∀ n, pyToInt v = .ok n →
      ∃ nr, CalendarTool._normalize_input (.dict r) = .ok nr ∧ nr.limit = some n) ∧
    (∀ e, pyToInt v = .error e →
      CalendarTool.run cfg now newId st (.dict r) = (st, CalendarTool.handleErr e) ∧
      (CalendarTool.handleErr e).status = "error") := by
  constructor
  · intro n hn
    have hnorm : CalendarTool._normalize_input (.dict r) =
        .ok { action := strToLower a
              id := r.id
              limit := some n
              event := match r.event with | some (some ch) => some ch | _ => none
              start := r.start
              end_ := r.end_ } := by
      simp [CalendarTool._normalize_input, ha, ha', hv, hn, Except.map]
    exact ⟨_, hnorm, rfl⟩
  · intro e he
    have hnorm : CalendarTool._normalize_input (.dict r) = .error e := by
      simp [CalendarTool._normalize_input, ha, ha', hv, he, Except.map]
    refine ⟨?_, ?_⟩
    · simp [CalendarTool.run, hnorm]
    · cases e <;> rfl

/-- C5 witness: the numeric string `"5"` is coerced to the integer 5. -/
theorem limit_coercion_and_error_surface_witness :
    ∃ nr, CalendarTool._normalize_input
        (.dict { action := some (.vstr "list"), limit := some (.vstr "5") }) = .ok nr ∧
      nr.limit = some 5 :=
  (limit_coercion_and_error_surface cfg0 0 "n0" stMem0
    { action := some (.vstr "list"), limit := some (.vstr "5") } "list" (.vstr "5")
    rfl (by decide) rfl).1 5 (by rfl)

/-- C6 counterexample: for `asin(2)` the trigonometry tool recovers the
domain error, but its envelope is the trig response dict
`{function, input, result, unit, raw_result, error}` — it carries no
`status` key at all, so it is not of the claimed form
`{"status":"error","error":...}` (that shape belongs to the calendar
tool). -/
theorem trig_envelope_lacks_status_field :
    (TrigonometryTool.run (.dict r6)).lookup "status" = none ∧
    (TrigonometryTool.run (.dict r6)).lookup "error" =
      some (.tstr "math domain error") ∧
    ((TrigonometryTool.run (.dict r6)).map (·.1)) =
      ["function", "input", "result", "unit", "raw_result", "error"] := by
  refine ⟨?_, ?_, ?_⟩ <;> decide

/-- C6 amended: every `asin`/`acos` request whose normalized value has
magnitude above 1 is recovered locally — the total `run` returns the
response with `error` set to the domain-error message and `result`,
`unit`, `raw_result` nulled; the envelope has no `status` field. -/
theorem trig_domain_error_recovered (r : TrigonometryTool.TrigReq)
    (n : TrigonometryTool.NormTrig)
    (hn : TrigonometryTool._normalize_input (.dict r) = .ok n)
    (hf : n.function = "asin" ∨ n.function = "acos") (hv : 1 < |n.value|) :
    TrigonometryTool.run (.dict r) =
      TrigonometryTool._format_response n.function (.tinputNorm n) none
        (some "math domain error") ∧
    (TrigonometryTool.run (.dict r)).lookup "error" = some (.tstr "math domain error") ∧
    (TrigonometryTool.run (.dict r)).lookup "result" = some .tnull ∧
    (TrigonometryTool.run (.dict r)).lookup "status" = none := by
  have hc : TrigonometryTool._compute n.function n.value n.unit =
      .error (.valueError "math domain error") := by
    rcases hf with hf | hf <;>
      simp [TrigonometryTool._compute, hf, TrigonometryTool.funcKeys, hv]
  have hrun : TrigonometryTool.run (.dict r) =
      TrigonometryTool._format_response n.function (.tinputNorm n) none
        (some "math domain error") := by
    simp [TrigonometryTool.run, hn, hc]
  refine ⟨hrun, ?_, ?_, ?_⟩ <;> rw [hrun] <;> rfl

/-- C6 witness: the `acos` request at value `-3/2` in degree mode. -/
theorem trig_domain_error_recovered_witness :
    TrigonometryTool.run
        (.dict { function := some (.vstr "ACOS"), value := some (.vfloat (-3/2)),
                 unit := some (.vstr "degrees") }) =
      TrigonometryTool._format_response "acos"
        (.tinputNorm ⟨"acos", -3/2, "degrees"⟩) none (some "math domain error") :=
  (trig_domain_error_recovered
    { function := some (.vstr "ACOS"), value := some (.vfloat (-3/2)),
      unit := some (.vstr "degrees") }
    ⟨"acos", -3/2, "degrees"⟩ rfl (Or.inr rfl) (by rw [abs_of_nonpos (by norm_num)]; norm_num)).1
